import Mathlib

/-!
Shallow embedding of the `AllKeysTable` React component
(`ui/litellm-dashboard/src/components/all_keys_table.tsx`): local state,
the filter-recomputation effect, the lookup-list merge effects, the
render branch between the tabular view and the key-detail view, the
column cell renderers, the pagination buttons and the filter-change /
filter-reset handlers.

JavaScript string truthiness (`if (s)`) is modelled by `strTruthy`;
nullable values are modelled with `Option`; JS numbers carried by the
records are modelled as `Rat` (for spend / budget) and `Int` (for page
numbers and rate limits); locale-dependent date formatting is modelled
by constructors carrying the raw value.
-/

/-- JS truthiness of a string: `if (s)` is taken iff `s` is non-empty. -/
def strTruthy (s : String) : Bool := !(s == "")

/-- JS truthiness of a nullable string (`null`/`undefined` are falsy). -/
def optTruthy : Option String → Bool
  | none => false
  | some s => strTruthy s

/-- JS `v || d` on a nullable string: `d` when `v` is absent or falsy. -/
def jsOrStr : Option String → String → String
  | none, d => d
  | some s, d => if strTruthy s then s else d

/-- Contiguous-subsequence test on character lists (JS `String.includes`). -/
def listContainsSeq (pat : List Char) : List Char → Bool
  | [] => pat.isEmpty
  | c :: cs => pat.isPrefixOf (c :: cs) || listContainsSeq pat cs

/-- JS `s.includes(pat)`: `pat` occurs contiguously inside `s`. -/
def jsIncludes (s pat : String) : Bool := listContainsSeq pat.toList s.toList

/-- `Team` (from `key_team_helpers/key_list`): id plus display alias; the
component guards `team.team_alias &&` and `team?.team_alias ||`, so the
alias is modelled as nullable. -/
structure Team where
  team_id : String
  team_alias : Option String
  deriving DecidableEq, Repr

/-- `Organization` (from `networking`): id plus nullable display name. -/
structure Organization where
  organization_id : String
  organization_name : Option String
  deriving DecidableEq, Repr

/-- `UserResponse` interface of the component. -/
structure UserResponse where
  user_id : String
  user_email : Option String
  user_role : Option String
  deriving DecidableEq, Repr

/-- `KeyResponse` record as consumed by the component's cells and filter
effect.  Every field the component guards for absence is an `Option`. -/
structure KeyResponse where
  token : Option String
  key_alias : Option String
  key_name : Option String
  team_id : Option String
  organization_id : Option String
  user_id : Option String
  created_at : Option String
  created_by : Option String
  expires : Option String
  spend : Option Rat
  max_budget : Option Rat
  budget_reset_at : Option String
  models : Option (List String)
  tpm_limit : Option Int
  rpm_limit : Option Int
  deriving DecidableEq, Repr

/-- The `filters` state: three named string fields, `''` meaning "no
constraint" (state initialised at lines 103-111 of the component). -/
structure Filters where
  teamID : String
  orgID : String
  keyAlias : String
  deriving DecidableEq, Repr

/-- The Key Alias predicate of the filter effect:
`key.key_alias && key.key_alias.toLowerCase().includes(filters['Key Alias'].toLowerCase())`. -/
def aliasMatch (pat : String) (k : KeyResponse) : Bool :=
  match k.key_alias with
  | none => false
  | some a => strTruthy a && jsIncludes a.toLower pat.toLower

/-- The body of the filter `useEffect` (component lines 125-144): start
from a copy of `keys`, then successively apply the Team ID equality
filter, the Organization ID equality filter and the case-insensitive
Key Alias substring filter, each only when its predicate is truthy. -/
def applyFilters (keys : List KeyResponse) (f : Filters) : List KeyResponse :=
  let r0 := keys
  let r1 := if strTruthy f.teamID then r0.filter (fun k => k.team_id == some f.teamID) else r0
  let r2 := if strTruthy f.orgID then r1.filter (fun k => k.organization_id == some f.orgID) else r1
  let r3 := if strTruthy f.keyAlias then r2.filter (fun k => aliasMatch f.keyAlias k) else r2
  r3

/-- Spec-side predicate: the conjunction of the non-empty filter
predicates (team-id equality, organization-id equality, alias
substring), each trivially true when its filter value is empty. -/
def keyMatches (f : Filters) (k : KeyResponse) : Bool :=
  (!(strTruthy f.teamID) || (k.team_id == some f.teamID)) &&
  ((!(strTruthy f.orgID) || (k.organization_id == some f.orgID)) &&
   (!(strTruthy f.keyAlias) || aliasMatch f.keyAlias k))

/-- Local state of `AllKeysTable` that the modelled effects touch. -/
structure ComponentState where
  selectedKeyId : Option String
  filters : Filters
  allTeams : List Team
  allOrganizations : List Organization
  filteredKeys : List KeyResponse
  deriving DecidableEq, Repr

/-- The filter `useEffect` (lines 119-145) as a state transformer: when
`keys` is absent it stores `[]`, otherwise it stores
`applyFilters keys filters`, discarding the previous `filteredKeys`. -/
def filterEffect (keys : Option (List KeyResponse)) (s : ComponentState) : ComponentState :=
  match keys with
  | none => { s with filteredKeys := [] }
  | some ks => { s with filteredKeys := applyFilters ks s.filters }

/-- The teams / organizations prop `useEffect`s (lines 173-189): when a
candidate list arrives from the parent, the functional updater keeps the
previous list unless the candidate is non-empty and strictly longer. -/
def mergeLookup {α : Type} (held : List α) (candidate : Option (List α)) : List α :=
  match candidate with
  | none => held
  | some c => if 0 < c.length then (if held.length < c.length then c else held) else held

/-- The mount-time `loadAllFilterData` path (lines 155-164): a fetched
list replaces the held one unconditionally whenever it is non-empty. -/
def applyFetchedLookup {α : Type} (held fetched : List α) : List α :=
  if 0 < fetched.length then fetched else held

/-- What the component's `return` renders: either the `KeyInfoView`
detail sub-view (with the selected id and the key data looked up in the
`keys` prop) or the tabular view (filter panel seeded with the current
`filters`, table fed with `filteredKeys`). -/
inductive View where
  | detail (keyId : String) (keyData : Option KeyResponse)
  | tabular (filters : Filters) (rows : List KeyResponse)
  deriving DecidableEq, Repr

/-- Discriminator: is the rendered view the detail sub-view? -/
def View.isDetail : View → Bool
  | .detail _ _ => true
  | .tabular _ _ => false

/-- Discriminator: is the rendered view the tabular view? -/
def View.isTabular : View → Bool
  | .detail _ _ => false
  | .tabular _ _ => true

/-- The render ternary `selectedKeyId ? <KeyInfoView .../> : <table .../>`
(component lines 465-521): the detail branch is taken iff `selectedKeyId`
is truthy, and its `keyData` is `keys.find(k => k.token === selectedKeyId)`. -/
def render (keys : List KeyResponse) (s : ComponentState) : View :=
  if optTruthy s.selectedKeyId then
    View.detail (s.selectedKeyId.getD "") (keys.find? (fun k => k.token == s.selectedKeyId))
  else
    View.tabular s.filters s.filteredKeys

/-- The `onClose` handler of `KeyInfoView`: `setSelectedKeyId(null)`,
touching nothing else. -/
def clearSelection (s : ComponentState) : ComponentState :=
  { s with selectedKeyId := none }

/-- Display content of a table cell.  Locale-dependent date formatting
and number formatting are kept symbolic: the constructor carries the raw
value the JS formatter is applied to. -/
inductive Rendered where
  | empty
  | text (s : String)
  | localeDate (raw : String)
  | localeTime (raw : String)
  | fixed4 (value : Rat)
  | num (value : Rat)
  | intVal (value : Int)
  | tags (models : List String)
  deriving DecidableEq, Repr

/-- Is the cell content one of the literal fallback placeholders? -/
def isPlaceholder : Rendered → Bool
  | .text s => s == "-" || s == "Unknown" || s == "Never" || s == "Unlimited"
  | _ => false

/-- `allTeams?.find(t => t.team_id === teamId)` (Team Alias cell). -/
def lookupTeam (allTeams : List Team) (teamId : Option String) : Option Team :=
  allTeams.find? (fun t => some t.team_id == teamId)

/-- `userList.find(u => u.user_id === userId)` (User Email cell). -/
def lookupUser (users : List UserResponse) (userId : Option String) : Option UserResponse :=
  users.find? (fun u => some u.user_id == userId)

/-- Key ID cell: `value ? value.slice(0, 7) + "..." : "-"`. -/
def tokenCell : Option String → Rendered
  | none => .text "-"
  | some s => if strTruthy s then .text (s.take 7 ++ "...") else .text "-"

/-- Key Alias cell: `value ? (value.length > 20 ? value.slice(0, 20) + "..." : value) : "-"`. -/
def keyAliasCell : Option String → Rendered
  | none => .text "-"
  | some s =>
    if strTruthy s then (if 20 < s.length then .text (s.take 20 ++ "...") else .text s)
    else .text "-"

/-- Secret Key cell: `<span>{info.getValue()}</span>` — the raw value,
with no fallback; an absent value renders as nothing. -/
def secretKeyCell : Option String → Rendered
  | none => .empty
  | some s => .text s

/-- Team Alias cell: `(allTeams.find(t => t.team_id === teamId))?.team_alias || "Unknown"`. -/
def teamAliasCell (allTeams : List Team) (teamId : Option String) : Rendered :=
  match lookupTeam allTeams teamId with
  | some t => .text (jsOrStr t.team_alias "Unknown")
  | none => .text "Unknown"

/-- Team ID cell: `value ? value.slice(0, 7) + "..." : "-"`. -/
def teamIdCell : Option String → Rendered
  | none => .text "-"
  | some s => if strTruthy s then .text (s.take 7 ++ "...") else .text "-"

/-- Organization ID cell: `value ? renderValue() : "-"`. -/
def orgIdCell : Option String → Rendered
  | none => .text "-"
  | some s => if strTruthy s then .text s else .text "-"

/-- User Email cell: `user?.user_email ? user.user_email : "-"`. -/
def userEmailCell (users : List UserResponse) (userId : Option String) : Rendered :=
  match lookupUser users userId with
  | some u => if optTruthy u.user_email then .text (u.user_email.getD "") else .text "-"
  | none => .text "-"

/-- User ID cell: `userId ? userId.slice(0, 7) + "..." : "-"`. -/
def userIdCell : Option String → Rendered
  | none => .text "-"
  | some s => if strTruthy s then .text (s.take 7 ++ "...") else .text "-"

/-- Created At cell: `value ? new Date(value).toLocaleDateString() : "-"`. -/
def createdAtCell : Option String → Rendered
  | none => .text "-"
  | some s => if strTruthy s then .localeDate s else .text "-"

/-- Created By cell: `value ? value : "Unknown"`. -/
def createdByCell : Option String → Rendered
  | none => .text "Unknown"
  | some s => if strTruthy s then .text s else .text "Unknown"

/-- Expires cell: `value ? new Date(value).toLocaleDateString() : "Never"`. -/
def expiresCell : Option String → Rendered
  | none => .text "Never"
  | some s => if strTruthy s then .localeDate s else .text "Never"

/-- Spend cell: `Number(info.getValue()).toFixed(4)` — no fallback; an
absent (`undefined`) value coerces to `NaN`, so the cell shows the
string `"NaN"` (a `null` would coerce to `0` and show `"0.0000"`;
neither is a placeholder). -/
def spendCell : Option Rat → Rendered
  | none => .text "NaN"
  | some q => .fixed4 q

/-- Budget cell: `v !== null && v !== undefined ? v : "Unlimited"`. -/
def budgetCell : Option Rat → Rendered
  | none => .text "Unlimited"
  | some q => .num q

/-- Budget Reset cell: `value ? new Date(value).toLocaleString() : "Never"`. -/
def budgetResetCell : Option String → Rendered
  | none => .text "Never"
  | some s => if strTruthy s then .localeTime s else .text "Never"

/-- Models cell: `models && models.length > 0 ? <spans> : "-"`. -/
def modelsCell : Option (List String) → Rendered
  | none => .text "-"
  | some ms => if 0 < ms.length then .tags ms else .text "-"

/-- One line of the Rate Limits cell: `limit !== null ? limit : "Unlimited"`. -/
def rateLimitText : Option Int → Rendered
  | none => .text "Unlimited"
  | some n => .intVal n

/-- The `pagination` prop. -/
structure PaginationInfo where
  currentPage : Int
  totalPages : Int
  totalCount : Int
  deriving DecidableEq, Repr

/-- `disabled` condition of the Previous button (line 493):
`isLoading || pagination.currentPage === 1`. -/
def prevDisabled (isLoading : Bool) (p : PaginationInfo) : Bool :=
  isLoading || (p.currentPage == 1)

/-- `disabled` condition of the Next button (line 501):
`isLoading || pagination.currentPage === pagination.totalPages`. -/
def nextDisabled (isLoading : Bool) (p : PaginationInfo) : Bool :=
  isLoading || (p.currentPage == p.totalPages)

/-- Page requested by the Previous button: `currentPage - 1`. -/
def prevTarget (p : PaginationInfo) : Int := p.currentPage - 1

/-- Page requested by the Next button: `currentPage + 1`. -/
def nextTarget (p : PaginationInfo) : Int := p.currentPage + 1

/-- Parent-owned selection state reachable through the `setSelectedTeam`
and `setCurrentOrg` callbacks. -/
structure ParentState where
  selectedTeam : Option Team
  currentOrg : Option Organization
  deriving DecidableEq, Repr

/-- The `newFilters: Record<string, string>` argument of
`handleFilterChange`; a missing key reads as `undefined`. -/
structure FilterInput where
  teamID : Option String
  orgID : Option String
  keyAlias : Option String
  deriving DecidableEq, Repr

/-- `handleFilterChange` (lines 202-225): store the normalised filters
(`newFilters[k] || ''`); then, only when the new Team ID is truthy and
resolves in `allTeams`, call `setSelectedTeam`; likewise for the
Organization ID against `allOrganizations`. -/
def handleFilterChange (allTeams : List Team) (allOrganizations : List Organization)
    (nf : FilterInput) (ps : ParentState) : Filters × ParentState :=
  let fs : Filters := ⟨jsOrStr nf.teamID "", jsOrStr nf.orgID "", jsOrStr nf.keyAlias ""⟩
  let team1 : Option Team :=
    if optTruthy nf.teamID then
      match allTeams.find? (fun t => some t.team_id == nf.teamID) with
      | some t => some t
      | none => ps.selectedTeam
    else ps.selectedTeam
  let org1 : Option Organization :=
    if optTruthy nf.orgID then
      match allOrganizations.find? (fun o => some o.organization_id == nf.orgID) with
      | some o => some o
      | none => ps.currentOrg
    else ps.currentOrg
  (fs, ⟨team1, org1⟩)

/-- `handleFilterReset` (lines 227-238): clear all three filters and
reset the parent's team and organization selections to `null`. -/
def handleFilterReset (_ps : ParentState) : Filters × ParentState :=
  (⟨"", "", ""⟩, ⟨none, none⟩)

/-- A sample key record used to instantiate witnesses. -/
def kSample : KeyResponse :=
  ⟨some "sk-12345678", some "Alias-A", some "sk-...abcd", some "team-a", some "org-a",
   some "user-a", some "2024-01-01", some "admin", none, some 5, none, none,
   some ["gpt-4"], some 1000, none⟩

/-- Staged filtering agrees with a single pass over the conjunction of
the non-empty predicates. -/
theorem applyFilters_eq_filter (ks : List KeyResponse) (f : Filters) :
    applyFilters ks f = ks.filter (keyMatches f) := by
  unfold applyFilters keyMatches
  cases h1 : strTruthy f.teamID <;> cases h2 : strTruthy f.orgID <;>
    cases h3 : strTruthy f.keyAlias <;>
    simp [h1, h2, h3, List.filter_filter]
  all_goals refine List.filter_congr fun a _ => ?_
  all_goals
    cases hT : (a.team_id == some f.teamID) <;>
    cases hO : (a.organization_id == some f.orgID) <;>
    cases hA : aliasMatch f.keyAlias a <;> simp [hT, hO, hA]

/-- Claim C1: for every input key list and every predicate set, the
derived `filteredKeys` produced by the filter effect equals the subset
of the input list satisfying the conjunction of the non-empty
predicates (team-id equality, organization-id equality, case-insensitive
alias substring), the staged application being applied in that order. -/
theorem filteredKeys_eq_conjunction_subset (ks : List KeyResponse) (s : ComponentState) :
    (filterEffect (some ks) s).filteredKeys = ks.filter (keyMatches s.filters) :=
  applyFilters_eq_filter ks s.filters

/-- Claim C2: the filter recomputation is a pure function of the key
list and the predicate set — two states agreeing on `filters` yield the
same `filteredKeys`, whatever their prior `filteredKeys`, and running
the effect twice equals running it once. -/
theorem filterEffect_stateless (keys : Option (List KeyResponse)) (s1 s2 : ComponentState)
    (h : s1.filters = s2.filters) :
    (filterEffect keys s1).filteredKeys = (filterEffect keys s2).filteredKeys
    ∧ filterEffect keys (filterEffect keys s1) = filterEffect keys s1 := by
  constructor
  · cases keys with
    | none => rfl
    | some ks => simp [filterEffect, h]
  · cases keys with
    | none => rfl
    | some ks => rfl

/-- Witness for C2 at concrete states differing in prior filtered
output and selection but agreeing on filters. -/
theorem filterEffect_stateless_witness :
    (filterEffect (some [kSample]) (ComponentState.mk none ⟨"", "", ""⟩ [] [] [])).filteredKeys
      = (filterEffect (some [kSample])
          (ComponentState.mk (some "k") ⟨"", "", ""⟩ [] [] [kSample])).filteredKeys
    ∧ filterEffect (some [kSample])
        (filterEffect (some [kSample]) (ComponentState.mk none ⟨"", "", ""⟩ [] [] []))
      = filterEffect (some [kSample]) (ComponentState.mk none ⟨"", "", ""⟩ [] [] []) :=
  filterEffect_stateless (some [kSample]) _ _ rfl

/-- Claim C3: with all three predicate values empty, the filter acts as
the identity on every key list. -/
theorem applyFilters_allEmpty_id (ks : List KeyResponse) :
    applyFilters ks ⟨"", "", ""⟩ = ks := by
  simp [applyFilters, strTruthy]

/-- Claim C4: the prop-update merge replaces the held lookup list with
the incoming candidate iff the candidate is strictly longer (ties keep
the held list), and the held list's length never decreases through such
updates. -/
theorem mergeLookup_growOnly {α : Type} (held cand : List α) (c : Option (List α)) :
    mergeLookup held (some cand) = (if held.length < cand.length then cand else held)
    ∧ held.length ≤ (mergeLookup held c).length := by
  constructor
  · by_cases h0 : 0 < cand.length
    · simp [mergeLookup, h0]
    · have hz : cand.length = 0 := by omega
      simp [mergeLookup, h0, hz]
  · cases c with
    | none => simp [mergeLookup]
    | some l =>
      by_cases h0 : 0 < l.length <;> by_cases h1 : held.length < l.length <;>
        simp [mergeLookup, h0, h1]
      omega

/-- Counterexample to C5 as stated: in the component state whose
`selectedKeyId` is the empty string — non-null, hence "selected" in the
claim's sense — the render ternary still shows the tabular view, because
the JS condition tests truthiness, not nullability. -/
theorem render_nonNull_not_detail_cex :
    (ComponentState.mk (some "") ⟨"", "", ""⟩ [] [] []).selectedKeyId ≠ none
    ∧ (render [] (ComponentState.mk (some "") ⟨"", "", ""⟩ [] [] [])).isDetail = false := by
  constructor
  · simp
  · rfl

/-- Claim C5 (amended): exactly one of the two views is rendered; the
detail sub-view is rendered iff the selected identifier is truthy
(non-null and non-empty); and clearing the identifier restores the
tabular view with the filter predicate set unchanged. -/
theorem render_view_exclusive (keys : List KeyResponse) (s : ComponentState) :
    (render keys s).isDetail = !(render keys s).isTabular
    ∧ (render keys s).isDetail = optTruthy s.selectedKeyId
    ∧ render keys (clearSelection s) = View.tabular s.filters s.filteredKeys := by
  refine ⟨?_, ?_, ?_⟩
  · cases h : optTruthy s.selectedKeyId <;> simp [render, h, View.isDetail, View.isTabular]
  · cases h : optTruthy s.selectedKeyId <;> simp [render, h, View.isDetail]
  · rfl

/-- Claim C6: a record whose team id resolves to no known team renders
"Unknown" in the Team Alias cell; a null expiry renders "Never"; a null
budget renders "Unlimited". -/
theorem cells_fallback (allTeams : List Team) (teamId : Option String)
    (h : lookupTeam allTeams teamId = none) :
    teamAliasCell allTeams teamId = .text "Unknown"
    ∧ expiresCell none = .text "Never"
    ∧ budgetCell none = .text "Unlimited" := by
  refine ⟨?_, rfl, rfl⟩
  simp [teamAliasCell, h]

/-- Witness for C6: a concrete team list in which the record's team id
does not occur. -/
theorem cells_fallback_witness :
    teamAliasCell [Team.mk "team-a" (some "Alpha")] (some "team-b") = .text "Unknown"
    ∧ expiresCell none = .text "Never"
    ∧ budgetCell none = .text "Unlimited" :=
  cells_fallback [Team.mk "team-a" (some "Alpha")] (some "team-b") (by decide)

/-- Counterexample to C7 as stated: the Secret Key cell renders the raw
value with no fallback (an absent value renders as nothing), and the
Spend cell renders `Number(value).toFixed(4)` with no fallback (an
absent value renders "NaN"); neither result is one of the literal
placeholders. -/
theorem columns_missing_placeholder_cex :
    isPlaceholder (secretKeyCell none) = false
    ∧ isPlaceholder (spendCell none) = false := by
  constructor <;> rfl

/-- Claim C7 (amended): every column render path except the Secret Key
and Spend cells falls back to one of the literal placeholders "-",
"Unknown", "Never" or "Unlimited" when the rendered value is absent or
its referenced entity cannot be resolved by id. -/
theorem columns_placeholder_fallback (allTeams : List Team) (teamId : Option String)
    (users : List UserResponse) (userId : Option String)
    (ht : lookupTeam allTeams teamId = none)
    (hu : lookupUser users userId = none) :
    isPlaceholder (tokenCell none) = true
    ∧ isPlaceholder (keyAliasCell none) = true
    ∧ isPlaceholder (teamAliasCell allTeams teamId) = true
    ∧ isPlaceholder (teamIdCell none) = true
    ∧ isPlaceholder (orgIdCell none) = true
    ∧ isPlaceholder (userEmailCell users userId) = true
    ∧ isPlaceholder (userIdCell none) = true
    ∧ isPlaceholder (createdAtCell none) = true
    ∧ isPlaceholder (createdByCell none) = true
    ∧ isPlaceholder (expiresCell none) = true
    ∧ isPlaceholder (budgetCell none) = true
    ∧ isPlaceholder (budgetResetCell none) = true
    ∧ isPlaceholder (modelsCell none) = true
    ∧ isPlaceholder (rateLimitText none) = true := by
  refine ⟨rfl, rfl, ?_, rfl, rfl, ?_, rfl, rfl, rfl, rfl, rfl, rfl, rfl, rfl⟩
  · simp [teamAliasCell, ht, isPlaceholder]
  · simp [userEmailCell, hu, isPlaceholder]

/-- Witness for the amended C7 at concrete unresolvable ids. -/
theorem columns_placeholder_fallback_witness :
    isPlaceholder (tokenCell none) = true
    ∧ isPlaceholder (keyAliasCell none) = true
    ∧ isPlaceholder (teamAliasCell [] (some "team-b")) = true
    ∧ isPlaceholder (teamIdCell none) = true
    ∧ isPlaceholder (orgIdCell none) = true
    ∧ isPlaceholder (userEmailCell [UserResponse.mk "u1" (some "a@b.c") none] (some "u2")) = true
    ∧ isPlaceholder (userIdCell none) = true
    ∧ isPlaceholder (createdAtCell none) = true
    ∧ isPlaceholder (createdByCell none) = true
    ∧ isPlaceholder (expiresCell none) = true
    ∧ isPlaceholder (budgetCell none) = true
    ∧ isPlaceholder (budgetResetCell none) = true
    ∧ isPlaceholder (modelsCell none) = true
    ∧ isPlaceholder (rateLimitText none) = true :=
  columns_placeholder_fallback [] (some "team-b")
    [UserResponse.mk "u1" (some "a@b.c") none] (some "u2") (by decide) (by decide)

/-- Claim C8: the mount-time fetch path bypasses the grow-only merge — a
non-empty fetched list replaces the held one unconditionally, and in
particular when it is strictly shorter than the held list (where the
prop-update merge would have kept the held list). -/
theorem fetchedLookup_bypasses_merge {α : Type} (held fetched : List α)
    (h : 0 < fetched.length) :
    applyFetchedLookup held fetched = fetched
    ∧ (fetched.length < held.length → mergeLookup held (some fetched) = held) := by
  constructor
  · simp [applyFetchedLookup, h]
  · intro hlt
    simp only [mergeLookup, if_pos h]
    rw [if_neg]
    omega

/-- Witness for C8: a two-element held list is replaced by a strictly
shorter non-empty fetched list, which the prop-update merge would have
rejected. -/
theorem fetchedLookup_bypasses_merge_witness :
    applyFetchedLookup [Team.mk "t1" none, Team.mk "t2" none] [Team.mk "t3" none]
      = [Team.mk "t3" none]
    ∧ ([Team.mk "t3" none].length < [Team.mk "t1" none, Team.mk "t2" none].length →
        mergeLookup [Team.mk "t1" none, Team.mk "t2" none] (some [Team.mk "t3" none])
          = [Team.mk "t1" none, Team.mk "t2" none]) :=
  fetchedLookup_bypasses_merge [Team.mk "t1" none, Team.mk "t2" none] [Team.mk "t3" none]
    (by decide)

/-- Claim C9: with the current page inside `[1, totalPages]`, the
Previous button is disabled at page 1 and while loading, the Next button
is disabled at page `totalPages` and while loading, and whenever either
button is enabled the page it requests (`currentPage ∓ 1`) again lies
inside `[1, totalPages]`. -/
theorem pagination_in_range (p : PaginationInfo) (isLoading : Bool)
    (h1 : 1 ≤ p.currentPage) (h2 : p.currentPage ≤ p.totalPages) :
    prevDisabled true p = true
    ∧ nextDisabled true p = true
    ∧ (p.currentPage = 1 → prevDisabled isLoading p = true)
    ∧ (p.currentPage = p.totalPages → nextDisabled isLoading p = true)
    ∧ (prevDisabled isLoading p = false → 1 ≤ prevTarget p ∧ prevTarget p ≤ p.totalPages)
    ∧ (nextDisabled isLoading p = false → 1 ≤ nextTarget p ∧ nextTarget p ≤ p.totalPages) := by
  refine ⟨rfl, rfl, ?_, ?_, ?_, ?_⟩
  · intro hc
    simp [prevDisabled, hc]
  · intro hc
    simp [nextDisabled, hc]
  · intro hen
    simp only [prevDisabled, Bool.or_eq_false_iff, beq_eq_false_iff_ne, ne_eq] at hen
    unfold prevTarget
    omega
  · intro hen
    simp only [nextDisabled, Bool.or_eq_false_iff, beq_eq_false_iff_ne, ne_eq] at hen
    unfold nextTarget
    omega

/-- Witness for C9 at page 2 of 3, not loading. -/
theorem pagination_in_range_witness :
    prevDisabled true (PaginationInfo.mk 2 3 100) = true
    ∧ nextDisabled true (PaginationInfo.mk 2 3 100) = true
    ∧ ((PaginationInfo.mk 2 3 100).currentPage = 1 →
        prevDisabled false (PaginationInfo.mk 2 3 100) = true)
    ∧ ((PaginationInfo.mk 2 3 100).currentPage = (PaginationInfo.mk 2 3 100).totalPages →
        nextDisabled false (PaginationInfo.mk 2 3 100) = true)
    ∧ (prevDisabled false (PaginationInfo.mk 2 3 100) = false →
        1 ≤ prevTarget (PaginationInfo.mk 2 3 100)
        ∧ prevTarget (PaginationInfo.mk 2 3 100) ≤ (PaginationInfo.mk 2 3 100).totalPages)
    ∧ (nextDisabled false (PaginationInfo.mk 2 3 100) = false →
        1 ≤ nextTarget (PaginationInfo.mk 2 3 100)
        ∧ nextTarget (PaginationInfo.mk 2 3 100) ≤ (PaginationInfo.mk 2 3 100).totalPages) :=
  pagination_in_range (PaginationInfo.mk 2 3 100) false (by decide) (by decide)

/-- Claim C10: `handleFilterChange` touches the parent-owned selections
only on a truthy id that resolves in the held lookup list — an empty or
unresolvable Team ID (resp. Organization ID) leaves `selectedTeam`
(resp. `currentOrg`) unchanged, a resolvable one stores the resolved
entry — while `handleFilterReset` resets both selections to null. -/
theorem handleFilterChange_frame (allTeams : List Team) (allOrganizations : List Organization)
    (nf : FilterInput) (ps : ParentState) :
    (optTruthy nf.teamID = false →
      (handleFilterChange allTeams allOrganizations nf ps).2.selectedTeam = ps.selectedTeam)
    ∧ (allTeams.find? (fun t => some t.team_id == nf.teamID) = none →
      (handleFilterChange allTeams allOrganizations nf ps).2.selectedTeam = ps.selectedTeam)
    ∧ (∀ t, optTruthy nf.teamID = true →
      allTeams.find? (fun t => some t.team_id == nf.teamID) = some t →
      (handleFilterChange allTeams allOrganizations nf ps).2.selectedTeam = some t)
    ∧ (optTruthy nf.orgID = false →
      (handleFilterChange allTeams allOrganizations nf ps).2.currentOrg = ps.currentOrg)
    ∧ (allOrganizations.find? (fun o => some o.organization_id == nf.orgID) = none →
      (handleFilterChange allTeams allOrganizations nf ps).2.currentOrg = ps.currentOrg)
    ∧ (∀ o, optTruthy nf.orgID = true →
      allOrganizations.find? (fun o => some o.organization_id == nf.orgID) = some o →
      (handleFilterChange allTeams allOrganizations nf ps).2.currentOrg = some o)
    ∧ (handleFilterReset ps).2.selectedTeam = none
    ∧ (handleFilterReset ps).2.currentOrg = none := by
  refine ⟨?_, ?_, ?_, ?_, ?_, ?_, rfl, rfl⟩
  · intro h
    simp [handleFilterChange, h]
  · intro h
    by_cases ht : optTruthy nf.teamID <;> simp [handleFilterChange, ht, h]
  · intro t ht hf
    simp [handleFilterChange, ht, hf]
  · intro h
    simp [handleFilterChange, h]
  · intro h
    by_cases ho : optTruthy nf.orgID <;> simp [handleFilterChange, ho, h]
  · intro o ho hf
    simp [handleFilterChange, ho, hf]

/-- Witness for C10: clearing the Team ID filter and passing an
unresolvable Organization ID both leave the parent selections alone,
while the reset handler nulls them. -/
theorem handleFilterChange_frame_witness :
    (handleFilterChange [] [Organization.mk "org-a" none]
      (FilterInput.mk none (some "org-b") none)
      (ParentState.mk (some (Team.mk "t1" none)) (some (Organization.mk "org-a" none)))).2.selectedTeam
      = some (Team.mk "t1" none)
    ∧ (handleFilterChange [] [Organization.mk "org-a" none]
      (FilterInput.mk none (some "org-b") none)
      (ParentState.mk (some (Team.mk "t1" none)) (some (Organization.mk "org-a" none)))).2.currentOrg
      = some (Organization.mk "org-a" none)
    ∧ (handleFilterReset (ParentState.mk (some (Team.mk "t1" none))
        (some (Organization.mk "org-a" none)))).2.selectedTeam = none :=
  ⟨(handleFilterChange_frame [] [Organization.mk "org-a" none]
      (FilterInput.mk none (some "org-b") none)
      (ParentState.mk (some (Team.mk "t1" none)) (some (Organization.mk "org-a" none)))).1
      (by decide),
   (handleFilterChange_frame [] [Organization.mk "org-a" none]
      (FilterInput.mk none (some "org-b") none)
      (ParentState.mk (some (Team.mk "t1" none)) (some (Organization.mk "org-a" none)))).2.2.2.2.1
      (by decide),
   (handleFilterChange_frame [] [Organization.mk "org-a" none]
      (FilterInput.mk none (some "org-b") none)
      (ParentState.mk (some (Team.mk "t1" none)) (some (Organization.mk "org-a" none)))).2.2.2.2.2.2.1⟩
